import Mathlib

/-!
Shallow embedding of the VkProjectRust rendering engine (a Rust/ash Vulkan
application) for checking its natural-language specification.

The embedding models the pure control-flow and data logic of the source:
Vulkan device/driver calls are fallible external operations, so their results
are injected as explicit parameters (`Except` values), and every modelled
function additionally returns the list of operations it performed, so that
ordering and counting properties can be stated.  Handles (buffers, image
views, framebuffers, ...) are modelled as natural numbers.
-/

namespace VkProjectRust

/-- Error type of the application, from `src/graphics/errors.rs` (`VkAppError`):
a wrapped Vulkan result code, an IO error with the offending path, an instance
error, or a device error. -/
inductive VkAppError where
  | VkError (code : Int)
  | IoError (msg : String) (path : String)
  | InstanceError (msg : String)
  | DeviceError (msg : String)
deriving DecidableEq

/-! ## Extension / capability negotiation (`src/graphics/extensions.rs`, `src/graphics/device.rs`) -/

/-- The `reduce` step of `Extensions::are_in`: Rust's
`Iterator::reduce(|acc, s| acc + ", " + s)` over the missing-name list, which
yields `None` on an empty list and otherwise folds the tail onto the head. -/
def joinCommaReduce : List String → Option String
  | [] => none
  | s :: rest => some (rest.foldl (fun acc not_found => acc ++ ", " ++ not_found) s)

/-- `Extensions::are_in` from `src/graphics/extensions.rs`: filter the required
names down to those not present in the available list, comma-join them, and if
any are missing fail with a `DeviceError` whose message is
`"Did not find validation layer(s) "` followed by the joined names. -/
def are_in (required : List String) (available : List String) : Except VkAppError Unit :=
  match joinCommaReduce (required.filter (fun v => !(available.contains v))) with
  | some not_found_layers =>
      .error (.DeviceError ("Did not find validation layer(s) " ++ not_found_layers))
  | none => .ok ()

/-- `VALIDATION_LAYERS` from `src/graphics/device.rs`. -/
def VALIDATION_LAYERS : List String := ["VK_LAYER_KHRONOS_validation"]

/-- `EXTENSIONS` from `src/graphics/device.rs` (`vk::KHR_SURFACE_NAME`,
`vk::EXT_DEBUG_UTILS_NAME`, `vk::KHR_WIN32_SURFACE_NAME`). -/
def EXTENSIONS : List String := ["VK_KHR_surface", "VK_EXT_debug_utils", "VK_KHR_win32_surface"]

/-- `create_instance` from `src/graphics/device.rs`: checks the validation
layers against the enumerated instance layers, then the required instance
extensions against the enumerated extension properties, and finally performs
the driver-level instance creation, whose result is injected as `driver`. -/
def create_instance (available_layers : List String) (available_extensions : List String)
    (driver : Except VkAppError Unit) : Except VkAppError Unit :=
  match are_in VALIDATION_LAYERS available_layers with
  | .error e => .error e
  | .ok () =>
    match are_in EXTENSIONS available_extensions with
    | .error e => .error e
    | .ok () => driver

/-- Spec-side comma join of a list of names (the spec's "comma-joined" list). -/
def commaJoin : List String → String
  | [] => ""
  | [s] => s
  | s :: rest => s ++ ", " ++ commaJoin rest

/-- Whether an `Except VkAppError` result is an `InstanceError`. -/
def isInstanceError {α : Type} : Except VkAppError α → Bool
  | .error (.InstanceError _) => true
  | _ => false

lemma commaJoin_cons_cons (s x : String) (xs : List String) :
    commaJoin (s :: x :: xs) = s ++ ", " ++ commaJoin (x :: xs) := rfl

lemma foldl_join_eq_commaJoin (rest : List String) :
    ∀ s : String, rest.foldl (fun acc not_found => acc ++ ", " ++ not_found) s
      = commaJoin (s :: rest) := by
  induction rest with
  | nil => intro s; rfl
  | cons x xs ih =>
    intro s
    rw [List.foldl_cons, ih (s ++ ", " ++ x), commaJoin_cons_cons]
    cases xs with
    | nil => simp [commaJoin, String.append_assoc]
    | cons y ys => simp [commaJoin_cons_cons, String.append_assoc]

lemma joinCommaReduce_eq (l : List String) :
    joinCommaReduce l = if l = [] then none else some (commaJoin l) := by
  cases l with
  | nil => rfl
  | cons s rest => simp [joinCommaReduce, foldl_join_eq_commaJoin]

/-- The behaviour of `are_in` in terms of the missing-name list. -/
lemma are_in_eq (required available : List String) :
    are_in required available =
      (if required.filter (fun v => !(available.contains v)) = [] then .ok ()
       else .error (.DeviceError ("Did not find validation layer(s) "
         ++ commaJoin (required.filter (fun v => !(available.contains v)))))) := by
  unfold are_in
  rw [joinCommaReduce_eq]
  by_cases hf : required.filter (fun v => !(available.contains v)) = []
  · rw [if_pos hf, if_pos hf]
  · rw [if_neg hf, if_neg hf]

lemma are_in_ok_iff (required available : List String) :
    are_in required available = .ok () ↔ ∀ r ∈ required, r ∈ available := by
  rw [are_in_eq]
  by_cases hf : required.filter (fun v => !(available.contains v)) = []
  · rw [if_pos hf]
    rw [List.filter_eq_nil_iff] at hf
    constructor
    · intro _ r hr
      simpa using hf r hr
    · intro _; rfl
  · rw [if_neg hf]
    constructor
    · intro h
      exact absurd h (by simp)
    · intro h
      exfalso
      apply hf
      rw [List.filter_eq_nil_iff]
      intro a ha
      simpa using h a ha

/-! ## Memory-type selection (`src/graphics/buffers.rs`, `find_memory_type`) -/

/-- A device memory type is modelled by its property-flag bitmask; the device's
reported memory types are a list whose length is `memory_type_count`. -/
abbrev MemoryTypeFlags := Nat

/-- Suitability predicate of the loop body in `find_memory_type`: bit `i` of
`type_filter` is set, and the memory type's property flags contain all the
requested property flags. -/
def suitableMemoryType (memory_types : List MemoryTypeFlags) (type_filter properties i : Nat) : Prop :=
  type_filter &&& (1 <<< i) ≠ 0 ∧
    (∃ flags, memory_types[i]? = some flags ∧ flags &&& properties = properties)

instance (memory_types : List MemoryTypeFlags) (type_filter properties i : Nat) :
    Decidable (suitableMemoryType memory_types type_filter properties i) := by
  unfold suitableMemoryType
  infer_instance

/-- The `for i in 0..memory_type_count` loop of `find_memory_type`, with early
return on the first suitable index. -/
def find_memory_type_loop (memory_types : List MemoryTypeFlags) (type_filter properties : Nat)
    (i : Nat) : Except VkAppError Nat :=
  if h : i < memory_types.length then
    if type_filter &&& (1 <<< i) ≠ 0 ∧ memory_types[i] &&& properties = properties then
      .ok i
    else
      find_memory_type_loop memory_types type_filter properties (i + 1)
  else
    .error (.DeviceError "Failed to find suitable memory type")
termination_by memory_types.length - i

/-- `find_memory_type` from `src/graphics/buffers.rs`: scan the device's
reported memory types in index order, returning the first index whose
type-filter bit is set and whose property flags are a superset of the
requested properties, and a `DeviceError` if none match. -/
def find_memory_type (memory_types : List MemoryTypeFlags) (type_filter properties : Nat) :
    Except VkAppError Nat :=
  find_memory_type_loop memory_types type_filter properties 0

lemma suitableMemoryType_of_get (memory_types : List MemoryTypeFlags)
    (type_filter properties i : Nat) (h : i < memory_types.length)
    (hbit : type_filter &&& (1 <<< i) ≠ 0)
    (hflags : memory_types[i] &&& properties = properties) :
    suitableMemoryType memory_types type_filter properties i :=
  ⟨hbit, memory_types[i], List.getElem?_eq_getElem h, hflags⟩

lemma not_suitableMemoryType (memory_types : List MemoryTypeFlags)
    (type_filter properties i : Nat) (h : i < memory_types.length)
    (hns : ¬(type_filter &&& (1 <<< i) ≠ 0 ∧ memory_types[i] &&& properties = properties)) :
    ¬ suitableMemoryType memory_types type_filter properties i := by
  intro ⟨hbit, flags, hget, hflags⟩
  rw [List.getElem?_eq_getElem h] at hget
  exact hns ⟨hbit, by injection hget with hh; rw [← hh] at hflags; exact hflags⟩

lemma find_memory_type_loop_ok (memory_types : List MemoryTypeFlags)
    (type_filter properties : Nat) :
    ∀ fuel i r, memory_types.length - i ≤ fuel →
      find_memory_type_loop memory_types type_filter properties i = .ok r →
      i ≤ r ∧ r < memory_types.length ∧
      suitableMemoryType memory_types type_filter properties r ∧
      ∀ j, i ≤ j → j < r → ¬ suitableMemoryType memory_types type_filter properties j := by
  intro fuel
  induction fuel with
  | zero =>
    intro i r hle h
    unfold find_memory_type_loop at h
    rw [dif_neg (by omega)] at h
    exact absurd h (by simp)
  | succ n ihn =>
    intro i r hle h
    unfold find_memory_type_loop at h
    by_cases hi : i < memory_types.length
    · rw [dif_pos hi] at h
      by_cases hc : type_filter &&& (1 <<< i) ≠ 0 ∧ memory_types[i] &&& properties = properties
      · rw [if_pos hc] at h
        injection h with hr
        subst hr
        exact ⟨le_refl i, hi, suitableMemoryType_of_get _ _ _ _ hi hc.1 hc.2,
          fun j hij hji => absurd (lt_of_le_of_lt hij hji) (lt_irrefl i)⟩
      · rw [if_neg hc] at h
        obtain ⟨h1, h2, h3, h4⟩ := ihn (i + 1) r (by omega) h
        refine ⟨by omega, h2, h3, fun j hij hjr => ?_⟩
        rcases Nat.eq_or_lt_of_le hij with heq | hlt
        · subst heq
          exact not_suitableMemoryType _ _ _ _ hi hc
        · exact h4 j hlt hjr
    · rw [dif_neg hi] at h
      exact absurd h (by simp)

lemma find_memory_type_loop_error (memory_types : List MemoryTypeFlags)
    (type_filter properties : Nat) :
    ∀ fuel i, memory_types.length - i ≤ fuel →
      (∀ j, i ≤ j → j < memory_types.length →
        ¬ suitableMemoryType memory_types type_filter properties j) →
      find_memory_type_loop memory_types type_filter properties i =
        .error (.DeviceError "Failed to find suitable memory type") := by
  intro fuel
  induction fuel with
  | zero =>
    intro i hle _
    unfold find_memory_type_loop
    rw [dif_neg (by omega)]
  | succ n ihn =>
    intro i hle hns
    unfold find_memory_type_loop
    by_cases hi : i < memory_types.length
    · rw [dif_pos hi]
      have hc : ¬(type_filter &&& (1 <<< i) ≠ 0 ∧ memory_types[i] &&& properties = properties) := by
        intro hc
        exact hns i (le_refl i) hi (suitableMemoryType_of_get _ _ _ _ hi hc.1 hc.2)
      rw [if_neg hc]
      exact ihn (i + 1) (by omega) (fun j hij hjl => hns j (by omega) hjl)
    · rw [dif_neg hi]

/-! ## Claim theorems: C5 and C6 -/

/-- C5 (corrected): capability checking is all-or-nothing and, within the
category being checked, the error message comma-joins every missing name; but
the error raised is a `DeviceError` (message prefix
"Did not find validation layer(s) "), not an `InstanceError`, and instance
initialization checks the validation layers before the instance extensions, so
the failure lists all missing names of the first failing category only.
`are_in` succeeds iff every required name is available; when any is missing it
fails with a `DeviceError` listing all of them comma-joined; `create_instance`
succeeds (given a successful driver call) iff every required layer and every
required extension is present. -/
theorem C5_capability_check_all_missing_listed (required available : List String)
    (available_layers available_extensions : List String) :
    (are_in required available = .ok () ↔ ∀ r ∈ required, r ∈ available) ∧
    (required.filter (fun v => !(available.contains v)) ≠ [] →
      are_in required available =
        .error (.DeviceError ("Did not find validation layer(s) "
          ++ commaJoin (required.filter (fun v => !(available.contains v)))))) ∧
    (create_instance available_layers available_extensions (.ok ()) = .ok () ↔
      (∀ r ∈ VALIDATION_LAYERS, r ∈ available_layers) ∧
      (∀ r ∈ EXTENSIONS, r ∈ available_extensions)) := by
  refine ⟨are_in_ok_iff required available, ?_, ?_⟩
  · intro hne
    rw [are_in_eq, if_neg hne]
  · constructor
    · intro h
      unfold create_instance at h
      cases hl : are_in VALIDATION_LAYERS available_layers with
      | error e =>
        rw [hl] at h
        exact Except.noConfusion h
      | ok u =>
        cases u
        rw [hl] at h
        cases he : are_in EXTENSIONS available_extensions with
        | error e =>
          rw [he] at h
          exact Except.noConfusion h
        | ok u =>
          cases u
          exact ⟨(are_in_ok_iff _ _).mp hl, (are_in_ok_iff _ _).mp he⟩
    · intro ⟨hl, he⟩
      unfold create_instance
      rw [(are_in_ok_iff _ _).mpr hl, (are_in_ok_iff _ _).mpr he]

/-- C5 witness: concrete instantiation of the corrected claim. -/
theorem C5_capability_check_witness :
    are_in ["VK_LAYER_KHRONOS_validation"] [] =
      .error (.DeviceError "Did not find validation layer(s) VK_LAYER_KHRONOS_validation") := by
  have h := (C5_capability_check_all_missing_listed
    ["VK_LAYER_KHRONOS_validation"] [] [] []).2.1 (by decide)
  rw [h]
  rfl

/-- C5 counterexample: with every capability missing, instance initialization
fails with a `DeviceError` (not an `InstanceError`) whose message names only
the missing validation layer, not the three missing instance extensions — so
the claim's "InstanceError listing the names of all missing capabilities" is
false as stated. -/
theorem C5_counterexample_not_instance_error :
    create_instance [] [] (.ok ()) =
      .error (.DeviceError "Did not find validation layer(s) VK_LAYER_KHRONOS_validation") ∧
    isInstanceError (create_instance [] [] (.ok ())) = false := by
  constructor <;> rfl

/-- C6 (confirmed): `find_memory_type` returns the smallest index `i` below
the memory-type count whose bit is set in `type_filter` and whose property
flags contain all requested flags; if no such index exists (in particular when
`type_filter` has no bits set) it returns the
"Failed to find suitable memory type" device error, and a returned index is
always within bounds (no out-of-bounds access). -/
theorem C6_find_memory_type_first_suitable (memory_types : List MemoryTypeFlags)
    (type_filter properties : Nat) :
    (∀ r, find_memory_type memory_types type_filter properties = .ok r →
      r < memory_types.length ∧
      suitableMemoryType memory_types type_filter properties r ∧
      ∀ j, j < r → ¬ suitableMemoryType memory_types type_filter properties j) ∧
    ((∀ j, j < memory_types.length →
        ¬ suitableMemoryType memory_types type_filter properties j) →
      find_memory_type memory_types type_filter properties =
        .error (.DeviceError "Failed to find suitable memory type")) := by
  constructor
  · intro r h
    obtain ⟨_, h2, h3, h4⟩ := find_memory_type_loop_ok memory_types type_filter properties
      memory_types.length 0 r (by omega) h
    exact ⟨h2, h3, fun j hj => h4 j (Nat.zero_le j) hj⟩
  · intro hns
    exact find_memory_type_loop_error memory_types type_filter properties
      memory_types.length 0 (by omega) (fun j _ hj => hns j hj)

/-- C6 witness: with a type filter that has no bits set, the lookup over a
two-entry memory-type list returns the device error rather than any index. -/
theorem C6_find_memory_type_witness :
    find_memory_type [7, 7] 0 1 =
      .error (.DeviceError "Failed to find suitable memory type") := by
  apply (C6_find_memory_type_first_suitable [7, 7] 0 1).2
  decide

/-! ## Texture image-layout transition (`src/graphics/textures.rs`) -/

/-- The image layouts occurring in the application (a strict subset of
Vulkan's, enough to express "any other pair" of transitions). -/
inductive ImageLayout where
  | UNDEFINED
  | TRANSFER_DST_OPTIMAL
  | SHADER_READ_ONLY_OPTIMAL
  | GENERAL
  | COLOR_ATTACHMENT_OPTIMAL
  | PRESENT_SRC_KHR
deriving DecidableEq

/-- Pipeline stage flags used by `transition_image_layout`. -/
inductive PipelineStageFlag where
  | TOP_OF_PIPE
  | TRANSFER
  | FRAGMENT_SHADER
deriving DecidableEq

/-- Access flags used by `transition_image_layout`; an access mask is a list
of these, the empty list standing for `AccessFlags::empty()`. -/
inductive AccessFlag where
  | TRANSFER_WRITE
  | SHADER_READ
deriving DecidableEq

/-- The fields of the `vk::ImageMemoryBarrier` that `transition_image_layout`
fills in (layouts and access masks; the queue-family indices and subresource
range are constants in the source and are omitted). -/
structure ImageMemoryBarrier where
  old_layout : ImageLayout
  new_layout : ImageLayout
  src_access_mask : List AccessFlag
  dst_access_mask : List AccessFlag
deriving DecidableEq

/-- The one-shot command-buffer operations performed by
`transition_image_layout`. -/
inductive TransitionCmd where
  | beginSingleTimeCommands
  | cmdPipelineBarrier (src_stage dst_stage : PipelineStageFlag) (barrier : ImageMemoryBarrier)
  | endSingleTimeCommands
deriving DecidableEq

/-- `transition_image_layout` from `src/graphics/textures.rs`: begin a one-shot
command buffer; for the pair UNDEFINED → TRANSFER_DST_OPTIMAL record a barrier
with empty source access mask, destination access TRANSFER_WRITE, stages
TOP_OF_PIPE → TRANSFER; for TRANSFER_DST_OPTIMAL → SHADER_READ_ONLY_OPTIMAL a
barrier with access TRANSFER_WRITE → SHADER_READ and stages TRANSFER →
FRAGMENT_SHADER; any other pair returns the "Unsupported layout transition"
device error before any barrier is recorded.  Returns the operations performed
together with the result. -/
def transition_image_layout (old_layout new_layout : ImageLayout) :
    List TransitionCmd × Except VkAppError Unit :=
  let begun : List TransitionCmd := [.beginSingleTimeCommands]
  if old_layout = .UNDEFINED ∧ new_layout = .TRANSFER_DST_OPTIMAL then
    (begun ++ [.cmdPipelineBarrier .TOP_OF_PIPE .TRANSFER
        { old_layout, new_layout, src_access_mask := [], dst_access_mask := [.TRANSFER_WRITE] },
      .endSingleTimeCommands], .ok ())
  else if old_layout = .TRANSFER_DST_OPTIMAL ∧ new_layout = .SHADER_READ_ONLY_OPTIMAL then
    (begun ++ [.cmdPipelineBarrier .TRANSFER .FRAGMENT_SHADER
        { old_layout, new_layout, src_access_mask := [.TRANSFER_WRITE],
          dst_access_mask := [.SHADER_READ] },
      .endSingleTimeCommands], .ok ())
  else
    (begun, .error (.DeviceError "Unsupported layout transition"))

/-- Whether a one-shot operation records a pipeline barrier. -/
def isBarrierCmd : TransitionCmd → Bool
  | .cmdPipelineBarrier _ _ _ => true
  | _ => false

/-- C7 (confirmed): exactly the two transition pairs
UNDEFINED → TRANSFER_DST_OPTIMAL (stages top-of-pipe → transfer, empty source
access mask) and TRANSFER_DST_OPTIMAL → SHADER_READ_ONLY_OPTIMAL (stages
transfer → fragment shader, access masks transfer-write → shader-read) are
accepted; every other pair fails with the unsupported-transition device error
and records no barrier. -/
theorem C7_transition_state_machine_closed (old_layout new_layout : ImageLayout) :
    (old_layout = .UNDEFINED ∧ new_layout = .TRANSFER_DST_OPTIMAL →
      transition_image_layout old_layout new_layout =
        ([.beginSingleTimeCommands,
          .cmdPipelineBarrier .TOP_OF_PIPE .TRANSFER
            { old_layout := .UNDEFINED, new_layout := .TRANSFER_DST_OPTIMAL,
              src_access_mask := [], dst_access_mask := [.TRANSFER_WRITE] },
          .endSingleTimeCommands], .ok ())) ∧
    (old_layout = .TRANSFER_DST_OPTIMAL ∧ new_layout = .SHADER_READ_ONLY_OPTIMAL →
      transition_image_layout old_layout new_layout =
        ([.beginSingleTimeCommands,
          .cmdPipelineBarrier .TRANSFER .FRAGMENT_SHADER
            { old_layout := .TRANSFER_DST_OPTIMAL, new_layout := .SHADER_READ_ONLY_OPTIMAL,
              src_access_mask := [.TRANSFER_WRITE], dst_access_mask := [.SHADER_READ] },
          .endSingleTimeCommands], .ok ())) ∧
    (¬(old_layout = .UNDEFINED ∧ new_layout = .TRANSFER_DST_OPTIMAL) →
     ¬(old_layout = .TRANSFER_DST_OPTIMAL ∧ new_layout = .SHADER_READ_ONLY_OPTIMAL) →
      (transition_image_layout old_layout new_layout).2 =
          .error (.DeviceError "Unsupported layout transition") ∧
        ∀ c ∈ (transition_image_layout old_layout new_layout).1, isBarrierCmd c = false) := by
  cases old_layout <;> cases new_layout <;> simp [transition_image_layout, isBarrierCmd]

/-- C7 witness: the two accepted pairs behave as stated, and the reverse pair
SHADER_READ_ONLY_OPTIMAL → TRANSFER_DST_OPTIMAL is rejected with no barrier
recorded. -/
theorem C7_transition_witness :
    (transition_image_layout .UNDEFINED .TRANSFER_DST_OPTIMAL).2 = .ok () ∧
    (transition_image_layout .TRANSFER_DST_OPTIMAL .SHADER_READ_ONLY_OPTIMAL).2 = .ok () ∧
    (transition_image_layout .SHADER_READ_ONLY_OPTIMAL .TRANSFER_DST_OPTIMAL).2 =
      .error (.DeviceError "Unsupported layout transition") ∧
    (transition_image_layout .SHADER_READ_ONLY_OPTIMAL .TRANSFER_DST_OPTIMAL).1 =
      [.beginSingleTimeCommands] :=
  ⟨by rw [(C7_transition_state_machine_closed .UNDEFINED .TRANSFER_DST_OPTIMAL).1 ⟨rfl, rfl⟩],
   by rw [(C7_transition_state_machine_closed .TRANSFER_DST_OPTIMAL
       .SHADER_READ_ONLY_OPTIMAL).2.1 ⟨rfl, rfl⟩],
   ((C7_transition_state_machine_closed .SHADER_READ_ONLY_OPTIMAL
       .TRANSFER_DST_OPTIMAL).2.2 (by decide) (by decide)).1,
   by decide⟩

/-! ## Swapchain data model (`src/graphics/presentation.rs`) -/

/-- `vk::Extent2D`. -/
structure Extent2D where
  width : Nat
  height : Nat
deriving DecidableEq

/-- `vk::Offset2D`. -/
structure Offset2D where
  x : Int
  y : Int
deriving DecidableEq

/-- `vk::Rect2D`. -/
structure Rect2D where
  offset : Offset2D
  extent : Extent2D
deriving DecidableEq

/-- `SwapchainSettings` from `src/graphics/presentation.rs` (format and
present mode are irrelevant to the claims and elided to the extent). -/
structure SwapchainSettings where
  extent : Extent2D
deriving DecidableEq

/-- A framebuffer as created by `Swapchain::create_framebuffers`: bound to the
pipeline's render pass, with the image view as its single attachment and the
swapchain extent as its dimensions. -/
structure Framebuffer where
  render_pass : Nat
  attachment : Nat
  width : Nat
  height : Nat
deriving DecidableEq

/-- `Swapchain` from `src/graphics/presentation.rs`: chain handle, settings,
per-image views and per-image framebuffers. -/
structure Swapchain where
  vk_swapchain : Nat
  settings : SwapchainSettings
  image_views : List Nat
  framebuffers : List Framebuffer
deriving DecidableEq

/-- `Swapchain::create_framebuffers`: for every image view, push onto the
existing framebuffer vector a framebuffer for the pipeline's render pass with
that view as single attachment and the swapchain extent as dimensions.  The
vector is not cleared first.  (The per-framebuffer driver call is modelled as
succeeding; the claim is about the count bookkeeping.) -/
def create_framebuffers (s : Swapchain) (render_pass : Nat) : Swapchain :=
  { s with
    framebuffers := s.image_views.foldl
      (fun acc image_view => acc ++
        [{ render_pass, attachment := image_view,
           width := s.settings.extent.width, height := s.settings.extent.height }])
      s.framebuffers }

/-- `create_swapchain` from `src/graphics/presentation.rs`, restricted to the
fields of the data model: the freshly created swapchain carries the image
views made from the chain's images and an empty framebuffer vector
(`framebuffers: Vec::new()`); framebuffer creation is a separate later call. -/
def create_swapchain (vk_swapchain : Nat) (settings : SwapchainSettings)
    (image_views : List Nat) : Swapchain :=
  { vk_swapchain, settings, image_views, framebuffers := [] }

lemma foldl_push_eq_append (l : List Nat) (f : Nat → Framebuffer) :
    ∀ acc : List Framebuffer, l.foldl (fun acc iv => acc ++ [f iv]) acc = acc ++ l.map f := by
  induction l with
  | nil => intro acc; simp
  | cons x xs ih => intro acc; simp [ih]

lemma create_framebuffers_append (s : Swapchain) (render_pass : Nat) :
    (create_framebuffers s render_pass).framebuffers =
      s.framebuffers ++ s.image_views.map
        (fun image_view =>
          { render_pass, attachment := image_view,
            width := s.settings.extent.width, height := s.settings.extent.height }) := by
  unfold create_framebuffers
  exact foldl_push_eq_append _ _ _

/-- C9 (confirmed): `create_framebuffers` appends one framebuffer per image
view without clearing the vector, so the framebuffer count equals the
image-view count exactly when it is called once on a freshly created swapchain
(whose framebuffer vector is empty, as `create_swapchain` guarantees), and a
second call on the same swapchain leaves the count at twice the image-view
count. -/
theorem C9_create_framebuffers_appends (s : Swapchain) (render_pass : Nat)
    (settings : SwapchainSettings) (handle : Nat) (image_views : List Nat) :
    ((create_framebuffers s render_pass).framebuffers.length =
      s.framebuffers.length + s.image_views.length) ∧
    ((create_swapchain handle settings image_views).framebuffers = []) ∧
    (s.framebuffers = [] →
      (create_framebuffers s render_pass).framebuffers.length = s.image_views.length) ∧
    (s.framebuffers = [] →
      (create_framebuffers (create_framebuffers s render_pass) render_pass).framebuffers.length =
        2 * s.image_views.length) := by
  have h1 : (create_framebuffers s render_pass).framebuffers.length =
      s.framebuffers.length + s.image_views.length := by
    rw [create_framebuffers_append]
    simp
  refine ⟨h1, rfl, ?_, ?_⟩
  · intro hempty
    rw [h1, hempty]
    simp
  · intro hempty
    rw [create_framebuffers_append, create_framebuffers_append]
    simp [create_framebuffers, hempty]
    omega

/-- C9 witness: a fresh swapchain with two image views has two framebuffers
after one call and four after a second call. -/
theorem C9_create_framebuffers_witness :
    ((create_framebuffers (create_swapchain 1 ⟨⟨640, 480⟩⟩ [10, 11]) 3).framebuffers.length = 2) ∧
    ((create_framebuffers (create_framebuffers (create_swapchain 1 ⟨⟨640, 480⟩⟩ [10, 11]) 3)
        3).framebuffers.length = 4) :=
  ⟨(C9_create_framebuffers_appends (create_swapchain 1 ⟨⟨640, 480⟩⟩ [10, 11]) 3
      ⟨⟨640, 480⟩⟩ 1 [10, 11]).2.2.1 rfl,
   (C9_create_framebuffers_appends (create_swapchain 1 ⟨⟨640, 480⟩⟩ [10, 11]) 3
      ⟨⟨640, 480⟩⟩ 1 [10, 11]).2.2.2 rfl⟩

/-! ## Command-buffer recording (`src/graphics/commands.rs`, `record_command_buffer`) -/

/-- `vk::Viewport` as set by `record_command_buffer`: origin, size, and the
depth range.  The coordinates and depths are `f32` in the source; the values
written are exact small constants (and the integral extent), so they are
modelled as rationals and naturals. -/
structure Viewport where
  x : ℚ
  y : ℚ
  width : Nat
  height : Nat
  min_depth : ℚ
  max_depth : ℚ
deriving DecidableEq

/-- `vk::IndexType`. -/
inductive IndexType where
  | UINT16
  | UINT32
deriving DecidableEq

/-- The commands recorded by `record_command_buffer`, in recording order. -/
inductive DrawCmd where
  | beginCommandBuffer
  | beginRenderPass (framebuffer : Framebuffer) (render_area : Rect2D) (clear_color : List ℚ)
  | bindPipeline
  | bindVertexBuffers (buffer : Nat)
  | bindDescriptorSets (sets : List Nat)
  | bindIndexBuffer (buffer : Nat) (index_type : IndexType)
  | setViewport (viewport : Viewport)
  | setScissor (scissor : Rect2D)
  | drawIndexed (index_count instance_count first_index : Nat) (vertex_offset : Int)
      (first_instance : Nat)
  | endRenderPass
  | endCommandBuffer
deriving DecidableEq

/-- `INDICES` from `src/graphics/vk_app.rs`: the fixed 6-entry 16-bit index
list describing the quad's two triangles. -/
def INDICES : List Nat := [0, 1, 2, 2, 3, 0]

/-- `record_command_buffer` from `src/graphics/commands.rs`: begin the buffer;
begin the render pass against the framebuffer for the acquired image index
with clear color (0,0,0,1) and render area (0,0)–extent; bind the pipeline,
vertex buffer, this frame's descriptor sets and the index buffer as UINT16;
set a dynamic viewport at (0,0) of the swapchain extent with depth range
min 0.0, max 0.0; set a scissor at (0,0) of the swapchain extent; draw indexed
with `INDICES.len()` indices, one instance, offsets zero; end the render pass
and the buffer.  The driver recording calls are modelled as succeeding and the
recorded commands are returned; `none` models the Rust panic on an
out-of-range `image_index` into `swapchain.framebuffers`. -/
def record_command_buffer (image_index : Nat) (swapchain : Swapchain)
    (vertex_buffer index_buffer : Nat) (descriptor_sets_current_frame : List Nat) :
    Option (List DrawCmd) :=
  match swapchain.framebuffers[image_index]? with
  | none => none
  | some framebuffer => some
    [.beginCommandBuffer,
     .beginRenderPass framebuffer
       { offset := { x := 0, y := 0 }, extent := swapchain.settings.extent } [0, 0, 0, 1],
     .bindPipeline,
     .bindVertexBuffers vertex_buffer,
     .bindDescriptorSets descriptor_sets_current_frame,
     .bindIndexBuffer index_buffer .UINT16,
     .setViewport
       { x := 0, y := 0, width := swapchain.settings.extent.width,
         height := swapchain.settings.extent.height, min_depth := 0, max_depth := 0 },
     .setScissor { offset := { x := 0, y := 0 }, extent := swapchain.settings.extent },
     .drawIndexed INDICES.length 1 0 0 0,
     .endRenderPass,
     .endCommandBuffer]

/-- The viewports set by a recorded command list. -/
def viewports_of (cmds : List DrawCmd) : List Viewport :=
  cmds.filterMap (fun c => match c with | .setViewport v => some v | _ => none)

/-- The scissors set by a recorded command list. -/
def scissors_of (cmds : List DrawCmd) : List Rect2D :=
  cmds.filterMap (fun c => match c with | .setScissor r => some r | _ => none)

/-- The indexed draw calls issued by a recorded command list. -/
def draws_of (cmds : List DrawCmd) : List (Nat × Nat × Nat × Int × Nat) :=
  cmds.filterMap (fun c =>
    match c with
    | .drawIndexed ic inst fi vo fin => some (ic, inst, fi, vo, fin)
    | _ => none)

/-- The spec's "standard depth range" for a viewport: minimum depth 0, maximum
depth 1 (stated from the spec's words, to compare against the source). -/
def standard_depth_range (v : Viewport) : Prop :=
  v.min_depth = 0 ∧ v.max_depth = 1

/-- C8 counterexample: for a concrete successful recording (extent 640 × 480,
one framebuffer, image index 0) the single dynamic viewport that is set has
depth range min 0.0, max 0.0 — not the standard depth range (max 1.0) — so the
claim is false as stated. -/
theorem C8_counterexample_nonstandard_depth :
    viewports_of ((record_command_buffer 0
        { vk_swapchain := 1, settings := ⟨⟨640, 480⟩⟩, image_views := [10],
          framebuffers := [{ render_pass := 3, attachment := 10, width := 640, height := 480 }] }
        5 6 [7]).getD []) =
      [{ x := 0, y := 0, width := 640, height := 480, min_depth := 0, max_depth := 0 }] ∧
    ¬ standard_depth_range
      { x := 0, y := 0, width := 640, height := 480, min_depth := 0, max_depth := 0 } := by
  constructor
  · rfl
  · intro ⟨_, hmax⟩
    exact absurd hmax (by norm_num)

/-- C8 (corrected): every successful `record_command_buffer` call sets exactly
one dynamic viewport at origin (0,0) whose width and height equal the
swapchain extent — but with depth range min 0.0, max 0.0 rather than the
standard depth range — sets exactly one scissor at origin (0,0) equal to the
swapchain extent, issues exactly one indexed draw call covering the full fixed
6-entry index list, and binds the index buffer as 16-bit. -/
theorem C8_record_command_buffer_contents (image_index : Nat) (swapchain : Swapchain)
    (vertex_buffer index_buffer : Nat) (descriptor_sets_current_frame : List Nat)
    (cmds : List DrawCmd)
    (h : record_command_buffer image_index swapchain vertex_buffer index_buffer
      descriptor_sets_current_frame = some cmds) :
    viewports_of cmds =
      [{ x := 0, y := 0, width := swapchain.settings.extent.width,
         height := swapchain.settings.extent.height, min_depth := 0, max_depth := 0 }] ∧
    scissors_of cmds =
      [{ offset := { x := 0, y := 0 }, extent := swapchain.settings.extent }] ∧
    draws_of cmds = [(INDICES.length, 1, 0, 0, 0)] ∧
    INDICES.length = 6 ∧
    DrawCmd.bindIndexBuffer index_buffer .UINT16 ∈ cmds := by
  unfold record_command_buffer at h
  cases hfb : swapchain.framebuffers[image_index]? with
  | none =>
    rw [hfb] at h
    exact Option.noConfusion h
  | some framebuffer =>
    rw [hfb] at h
    injection h with h
    subst h
    refine ⟨rfl, rfl, rfl, rfl, ?_⟩
    simp [viewports_of]

/-- An example swapchain for exercising `record_command_buffer`. -/
def example_swapchain : Swapchain :=
  { vk_swapchain := 1, settings := ⟨⟨800, 600⟩⟩, image_views := [10],
    framebuffers := [{ render_pass := 3, attachment := 10, width := 800, height := 600 }] }

/-- The commands recorded for `example_swapchain` at image index 0. -/
def example_cmds : List DrawCmd :=
  (record_command_buffer 0 example_swapchain 5 6 [7]).getD []

/-- C8 witness: concrete successful recording satisfying the corrected
claim. -/
theorem C8_record_command_buffer_witness :
    viewports_of example_cmds =
      [{ x := 0, y := 0, width := 800, height := 600, min_depth := 0, max_depth := 0 }] ∧
    scissors_of example_cmds = [{ offset := { x := 0, y := 0 }, extent := ⟨800, 600⟩ }] ∧
    draws_of example_cmds = [(INDICES.length, 1, 0, 0, 0)] ∧
    INDICES.length = 6 ∧
    DrawCmd.bindIndexBuffer 6 .UINT16 ∈ example_cmds :=
  C8_record_command_buffer_contents 0 example_swapchain 5 6 [7] example_cmds rfl

/-! ## Swapchain recreation (`src/graphics/vk_app.rs`, `VkApp::recreate_swapchain`) -/

/-- The device-level operations performed during swapchain recreation, in
order. -/
inductive RecreateOp where
  | deviceWaitIdle
  | destroyFramebuffer (framebuffer : Framebuffer)
  | destroyImageView (image_view : Nat)
  | destroySwapchain (handle : Nat)
  | getSurfaceDetails
  | createSwapchainOp (handle : Nat)
  | createFramebuffersOp
deriving DecidableEq

/-- `Swapchain::cleanup` from `src/graphics/presentation.rs`: destroy every
framebuffer, then every image view, then the chain handle, in that order. -/
def swapchain_cleanup (s : Swapchain) : List RecreateOp :=
  s.framebuffers.map .destroyFramebuffer ++
  s.image_views.map .destroyImageView ++
  [.destroySwapchain s.vk_swapchain]

/-- `VkApp::recreate_swapchain` from `src/graphics/vk_app.rs` as its sequence
of device operations: wait for the device to be idle, clean up (destroy) the
previous swapchain, requery the surface details, then create the new swapchain
(handle `new_handle`) and its framebuffers.  The fallible driver calls are
modelled on their success path: the claim concerns the order of the steps. -/
def recreate_swapchain_ops (s : Swapchain) (new_handle : Nat) : List RecreateOp :=
  [.deviceWaitIdle] ++ swapchain_cleanup s ++
  [.getSurfaceDetails] ++ [.createSwapchainOp new_handle, .createFramebuffersOp]

/-- Whether a recreation operation destroys part of the old swapchain. -/
def isDestroyOp : RecreateOp → Bool
  | .destroyFramebuffer _ => true
  | .destroyImageView _ => true
  | .destroySwapchain _ => true
  | _ => false

/-- Whether a recreation operation references the old swapchain `s` (its chain
handle, one of its image views, or one of its framebuffers). -/
def referencesOldSwapchain (s : Swapchain) : RecreateOp → Bool
  | .destroyFramebuffer fb => s.framebuffers.contains fb
  | .destroyImageView iv => s.image_views.contains iv
  | .destroySwapchain h => s.vk_swapchain == h
  | _ => false

/-- One kind of element occurs strictly before another in a list: every index
holding a `p`-element is smaller than every index holding a `q`-element. -/
def occursBefore (p q : α → Bool) (l : List α) : Prop :=
  ∀ i j : Nat, (∃ x, l[i]? = some x ∧ p x) → (∃ y, l[j]? = some y ∧ q y) → i < j

lemma occursBefore_append (p q : α → Bool) (A B : List α)
    (hqA : ∀ x ∈ A, q x = false) (hpB : ∀ x ∈ B, p x = false) :
    occursBefore p q (A ++ B) := by
  intro i j ⟨x, hxi, hpx⟩ ⟨y, hyj, hqy⟩
  have hiA : i < A.length := by
    by_contra hge
    rw [List.getElem?_append_right (by omega)] at hxi
    have hmem : x ∈ B := List.getElem?_mem hxi
    rw [hpB x hmem] at hpx
    exact Bool.noConfusion hpx
  have hjB : A.length ≤ j := by
    by_contra hlt
    rw [List.getElem?_append_left (by omega)] at hyj
    have hmem : y ∈ A := List.getElem?_mem hyj
    rw [hqA y hmem] at hqy
    exact Bool.noConfusion hqy
  omega

/-- An example old swapchain used as the concrete counterexample input. -/
def old_swapchain : Swapchain :=
  { vk_swapchain := 20, settings := ⟨⟨640, 480⟩⟩, image_views := [21],
    framebuffers := [{ render_pass := 3, attachment := 21, width := 640, height := 480 }] }

/-- C3 counterexample: on a concrete swapchain with one framebuffer and one
image view, the recreation procedure destroys the old swapchain's resources
(already at position 1) strictly before it requeries the surface details
(position 4), so the claimed order — requery (step 2) before destruction
(step 3) — is false on the code. -/
theorem C3_counterexample_destroy_before_requery :
    recreate_swapchain_ops old_swapchain 22 =
      [.deviceWaitIdle,
       .destroyFramebuffer { render_pass := 3, attachment := 21, width := 640, height := 480 },
       .destroyImageView 21,
       .destroySwapchain 20,
       .getSurfaceDetails,
       .createSwapchainOp 22,
       .createFramebuffersOp] ∧
    (recreate_swapchain_ops old_swapchain 22).findIdx isDestroyOp = 1 ∧
    (recreate_swapchain_ops old_swapchain 22).findIdx (· == RecreateOp.getSurfaceDetails) = 4 ∧
    ¬ occursBefore (· == RecreateOp.getSurfaceDetails) isDestroyOp
        (recreate_swapchain_ops old_swapchain 22) := by
  refine ⟨rfl, rfl, rfl, ?_⟩
  intro hord
  have := hord 4 1 ⟨.getSurfaceDetails, rfl, rfl⟩
    ⟨.destroyFramebuffer { render_pass := 3, attachment := 21, width := 640, height := 480 },
      rfl, rfl⟩
  omega

/-- C3 (corrected): every execution of the swapchain recreation procedure
performs, in order: (1) wait for the device to be idle, (2) destroy the old
swapchain's framebuffers, then its image views, then the chain handle, in that
order, (3) requery the surface details, (4) create the new swapchain and its
framebuffers — i.e. destruction happens before the surface requery, not after
it as the claim states — and no operation from the requery onwards references
the old swapchain. -/
theorem C3_recreate_order (s : Swapchain) (new_handle : Nat) :
    (recreate_swapchain_ops s new_handle =
      [RecreateOp.deviceWaitIdle] ++
      (s.framebuffers.map .destroyFramebuffer ++ s.image_views.map .destroyImageView ++
        [.destroySwapchain s.vk_swapchain]) ++
      [RecreateOp.getSurfaceDetails] ++
      [RecreateOp.createSwapchainOp new_handle, RecreateOp.createFramebuffersOp]) ∧
    ((recreate_swapchain_ops s new_handle).head? = some .deviceWaitIdle) ∧
    occursBefore isDestroyOp (· == RecreateOp.getSurfaceDetails)
      (recreate_swapchain_ops s new_handle) ∧
    occursBefore (· == RecreateOp.getSurfaceDetails)
      (fun op => op == RecreateOp.createSwapchainOp new_handle
        || op == RecreateOp.createFramebuffersOp)
      (recreate_swapchain_ops s new_handle) ∧
    occursBefore (fun op => (isDestroyOp op && !(op == RecreateOp.destroySwapchain s.vk_swapchain)))
      (· == RecreateOp.destroySwapchain s.vk_swapchain)
      (recreate_swapchain_ops s new_handle) ∧
    (∀ op ∈ [RecreateOp.getSurfaceDetails, RecreateOp.createSwapchainOp new_handle,
        RecreateOp.createFramebuffersOp], referencesOldSwapchain s op = false) := by
  refine ⟨by simp [recreate_swapchain_ops, swapchain_cleanup], rfl, ?_, ?_, ?_, ?_⟩
  · have h : recreate_swapchain_ops s new_handle =
        ([RecreateOp.deviceWaitIdle] ++ swapchain_cleanup s) ++
        ([RecreateOp.getSurfaceDetails] ++
          [RecreateOp.createSwapchainOp new_handle, RecreateOp.createFramebuffersOp]) := by
      simp [recreate_swapchain_ops]
    rw [h]
    apply occursBefore_append
    · intro x hx
      rcases List.mem_append.mp hx with hx | hx
      · simp only [List.mem_singleton] at hx
        subst hx
        rfl
      · unfold swapchain_cleanup at hx
        rcases List.mem_append.mp hx with hx | hx
        · rcases List.mem_append.mp hx with hx | hx <;>
            (obtain ⟨a, _, ha⟩ := List.mem_map.mp hx; subst ha; rfl)
        · simp only [List.mem_singleton] at hx
          subst hx
          rfl
    · intro x hx
      rcases List.mem_append.mp hx with hx | hx
      · simp only [List.mem_singleton] at hx
        subst hx
        rfl
      · rcases List.mem_cons.mp hx with hx | hx
        · subst hx; rfl
        · simp only [List.mem_singleton] at hx
          subst hx
          rfl
  · have h : recreate_swapchain_ops s new_handle =
        ([RecreateOp.deviceWaitIdle] ++ swapchain_cleanup s ++ [RecreateOp.getSurfaceDetails]) ++
        [RecreateOp.createSwapchainOp new_handle, RecreateOp.createFramebuffersOp] := by
      simp [recreate_swapchain_ops]
    rw [h]
    apply occursBefore_append
    · intro x hx
      rcases List.mem_append.mp hx with hx | hx
      · rcases List.mem_append.mp hx with hx | hx
        · simp only [List.mem_singleton] at hx
          subst hx
          rfl
        · unfold swapchain_cleanup at hx
          rcases List.mem_append.mp hx with hx | hx
          · rcases List.mem_append.mp hx with hx | hx <;>
              (obtain ⟨a, _, ha⟩ := List.mem_map.mp hx; subst ha; rfl)
          · simp only [List.mem_singleton] at hx
            subst hx
            rfl
      · simp only [List.mem_singleton] at hx
        subst hx
        rfl
    · intro x hx
      rcases List.mem_cons.mp hx with hx | hx
      · subst hx; rfl
      · simp only [List.mem_singleton] at hx
        subst hx
        rfl
  · have h : recreate_swapchain_ops s new_handle =
        ([RecreateOp.deviceWaitIdle] ++
          (s.framebuffers.map .destroyFramebuffer ++ s.image_views.map .destroyImageView)) ++
        ([RecreateOp.destroySwapchain s.vk_swapchain] ++ ([RecreateOp.getSurfaceDetails] ++
          [RecreateOp.createSwapchainOp new_handle, RecreateOp.createFramebuffersOp])) := by
      simp [recreate_swapchain_ops, swapchain_cleanup]
    rw [h]
    apply occursBefore_append
    · intro x hx
      rcases List.mem_append.mp hx with hx | hx
      · simp only [List.mem_singleton] at hx
        subst hx
        rfl
      · rcases List.mem_append.mp hx with hx | hx <;>
          (obtain ⟨a, _, ha⟩ := List.mem_map.mp hx; subst ha; rfl)
    · intro x hx
      rcases List.mem_append.mp hx with hx | hx
      · simp only [List.mem_singleton] at hx
        subst hx
        simp [isDestroyOp]
      · rcases List.mem_append.mp hx with hx | hx
        · simp only [List.mem_singleton] at hx
          subst hx
          rfl
        · rcases List.mem_cons.mp hx with hx | hx
          · subst hx; rfl
          · simp only [List.mem_singleton] at hx
            subst hx
            rfl
  · intro op hop
    rcases List.mem_cons.mp hop with hop | hop
    · subst hop; rfl
    · rcases List.mem_cons.mp hop with hop | hop
      · subst hop; rfl
      · simp only [List.mem_singleton] at hop
        subst hop
        rfl

/-! ## Descriptor sets (`src/graphics/buffers.rs`, `create_descriptor_sets`) -/

/-- `MAX_FRAMES_IN_FLIGHT` from `src/graphics/commands.rs`. -/
def MAX_FRAMES_IN_FLIGHT : Nat := 2

/-- `create_descriptor_sets` from `src/graphics/buffers.rs`.  The sets
allocated by the driver (`allocate_descriptor_sets`) are injected as
`descriptor_sets`; uniform buffers are identified by handle.  The source
raises its size-mismatch `DeviceError` only when the allocated-set count AND
the uniform-buffer count both differ from `MAX_FRAMES_IN_FLIGHT`; otherwise it
writes descriptors for each `(descriptor set, uniform buffer)` pair obtained
by zipping the two vectors and returns the sets.  The returned pair is
(descriptor sets, the zipped pairs that were written). -/
def create_descriptor_sets (descriptor_sets : List Nat) (uniform_buffers : List Nat) :
    Except VkAppError (List Nat × List (Nat × Nat)) :=
  if descriptor_sets.length ≠ MAX_FRAMES_IN_FLIGHT ∧
      uniform_buffers.length ≠ MAX_FRAMES_IN_FLIGHT then
    .error (.DeviceError "Descriptor sets and uniform buffers must be same size as MAX_FRAMES_IN_FLIGHT")
  else
    .ok (descriptor_sets, descriptor_sets.zip uniform_buffers)

/-- C10 (confirmed): the size-mismatch error is raised exactly when both the
allocated descriptor-set count and the uniform-buffer count differ from
`MAX_FRAMES_IN_FLIGHT`; when at least one of them equals it (in particular
when exactly one does), no error is raised and descriptors are written for the
zipped pairs only, i.e. for min(set count, buffer count) sets. -/
theorem C10_descriptor_sets_size_check (descriptor_sets uniform_buffers : List Nat) :
    ((∃ e, create_descriptor_sets descriptor_sets uniform_buffers = .error e) ↔
      (descriptor_sets.length ≠ MAX_FRAMES_IN_FLIGHT ∧
       uniform_buffers.length ≠ MAX_FRAMES_IN_FLIGHT)) ∧
    (descriptor_sets.length = MAX_FRAMES_IN_FLIGHT ∨
        uniform_buffers.length = MAX_FRAMES_IN_FLIGHT →
      create_descriptor_sets descriptor_sets uniform_buffers =
          .ok (descriptor_sets, descriptor_sets.zip uniform_buffers) ∧
        (descriptor_sets.zip uniform_buffers).length =
          min descriptor_sets.length uniform_buffers.length) := by
  unfold create_descriptor_sets
  by_cases hc : descriptor_sets.length ≠ MAX_FRAMES_IN_FLIGHT ∧
      uniform_buffers.length ≠ MAX_FRAMES_IN_FLIGHT
  · rw [if_pos hc]
    constructor
    · exact ⟨fun _ => hc, fun _ => ⟨_, rfl⟩⟩
    · intro hone
      exact absurd hone (by tauto)
  · rw [if_neg hc]
    constructor
    · constructor
      · intro ⟨e, he⟩
        exact Except.noConfusion he
      · intro h
        exact absurd h hc
    · intro _
      exact ⟨rfl, List.length_zip _ _⟩

/-- C10 witness: with three allocated descriptor sets and two uniform buffers
(exactly one count equals `MAX_FRAMES_IN_FLIGHT`), no error is raised and only
the two zipped pairs are written; with three and three, the size-mismatch
error is raised. -/
theorem C10_descriptor_sets_witness :
    create_descriptor_sets [1, 2, 3] [4, 5] = .ok ([1, 2, 3], [(1, 4), (2, 5)]) ∧
    create_descriptor_sets [1, 2, 3] [4, 5, 6] =
      .error (.DeviceError "Descriptor sets and uniform buffers must be same size as MAX_FRAMES_IN_FLIGHT") := by
  constructor
  · have h := ((C10_descriptor_sets_size_check [1, 2, 3] [4, 5]).2 (Or.inr (by decide))).1
    rw [h]
    rfl
  · rfl

/-! ## The frame driver (`src/graphics/vk_app.rs`, `VkApp::draw_frame`) -/

/-- Result codes of the fallible Vulkan calls made by `draw_frame`:
`ERROR_OUT_OF_DATE_KHR` is distinguished because `draw_frame` matches on it;
every other error code is carried as its raw value. -/
inductive VkResultCode where
  | ERROR_OUT_OF_DATE_KHR
  | other (code : Int)
deriving DecidableEq

/-- The raw numeric value of a result code
(`VK_ERROR_OUT_OF_DATE_KHR = -1000001004`). -/
def vkRaw : VkResultCode → Int
  | .ERROR_OUT_OF_DATE_KHR => -1000001004
  | .other code => code

/-- `impl From<vk::Result> for VkAppError`: a Vulkan error becomes
`VkAppError::VkError` carrying the raw code. -/
def vkErr (c : VkResultCode) : VkAppError := .VkError (vkRaw c)

/-- The outcomes of the driver calls made during one `draw_frame` invocation,
injected as parameters of the model.  `acquire_next_image` yields the image
index and the suboptimal flag on success; `queue_present` yields the
(discarded) suboptimal flag on success. -/
structure FrameEnv where
  wait_for_fences : Except VkResultCode Unit
  acquire_next_image : Except VkResultCode (Nat × Bool)
  reset_fences : Except VkResultCode Unit
  reset_command_buffer : Except VkResultCode Unit
  record_result : Except VkAppError Unit
  queue_submit : Except VkResultCode Unit
  queue_present : Except VkResultCode Bool
  recreate_result : Except VkAppError Unit

/-- The operations `draw_frame` performs, in order. -/
inductive FrameOp where
  | waitForFences (slot : Nat)
  | acquireNextImage (slot : Nat)
  | updateUniformBuffer (slot : Nat)
  | resetFences (slot : Nat)
  | resetCommandBuffer (slot : Nat)
  | recordCommandBuffer (slot : Nat) (image_index : Nat)
  | queueSubmit (slot : Nat)
  | queuePresent (image_index : Nat)
  | recreateSwapchain
deriving DecidableEq

/-- The observable outcome of one `draw_frame` call: its returned result, the
value of `current_frame` afterwards, and the operations performed. -/
structure DrawOutcome where
  result : Except VkAppError Unit
  current_frame : Nat
  trace : List FrameOp

/-- `VkApp::draw_frame` from `src/graphics/vk_app.rs`:
wait on this slot's in-flight fence; acquire the next swapchain image (on
`ERROR_OUT_OF_DATE_KHR`: recreate the swapchain and return `Ok` early, without
touching the fence or advancing `current_frame`; on any other error:
propagate); update this slot's uniform buffer; reset the fence and the command
buffer; record the command buffer; submit on the graphics queue; present on
the present queue, propagating any present error (including
`ERROR_OUT_OF_DATE_KHR`) via `?` and discarding the present suboptimal flag;
if acquisition was flagged suboptimal, recreate the swapchain after
presenting; finally advance `current_frame` modulo
`MAX_FRAMES_IN_FLIGHT`. -/
def draw_frame (env : FrameEnv) (current_frame : Nat) : DrawOutcome :=
  let t1 := [FrameOp.waitForFences current_frame]
  match env.wait_for_fences with
  | .error c => { result := .error (vkErr c), current_frame, trace := t1 }
  | .ok () =>
    let t2 := t1 ++ [.acquireNextImage current_frame]
    match env.acquire_next_image with
    | .error .ERROR_OUT_OF_DATE_KHR =>
      let t3 := t2 ++ [.recreateSwapchain]
      match env.recreate_result with
      | .error e => { result := .error e, current_frame, trace := t3 }
      | .ok () => { result := .ok (), current_frame, trace := t3 }
    | .error (.other code) =>
      { result := .error (.VkError code), current_frame, trace := t2 }
    | .ok (image_index, suboptimal_surface) =>
      let t4 := t2 ++ [.updateUniformBuffer current_frame, .resetFences current_frame]
      match env.reset_fences with
      | .error c => { result := .error (vkErr c), current_frame, trace := t4 }
      | .ok () =>
        let t5 := t4 ++ [.resetCommandBuffer current_frame]
        match env.reset_command_buffer with
        | .error c => { result := .error (vkErr c), current_frame, trace := t5 }
        | .ok () =>
          let t6 := t5 ++ [.recordCommandBuffer current_frame image_index]
          match env.record_result with
          | .error e => { result := .error e, current_frame, trace := t6 }
          | .ok () =>
            let t7 := t6 ++ [.queueSubmit current_frame]
            match env.queue_submit with
            | .error c => { result := .error (vkErr c), current_frame, trace := t7 }
            | .ok () =>
              let t8 := t7 ++ [.queuePresent image_index]
              match env.queue_present with
              | .error c => { result := .error (vkErr c), current_frame, trace := t8 }
              | .ok _suboptimal_present =>
                if suboptimal_surface then
                  let t9 := t8 ++ [.recreateSwapchain]
                  match env.recreate_result with
                  | .error e => { result := .error e, current_frame, trace := t9 }
                  | .ok () =>
                    { result := .ok (),
                      current_frame := (current_frame + 1) % MAX_FRAMES_IN_FLIGHT, trace := t9 }
                else
                  { result := .ok (),
                    current_frame := (current_frame + 1) % MAX_FRAMES_IN_FLIGHT, trace := t8 }

/-! ## Claim theorems: C1, C2, C4 -/

/-- C1 (confirmed): when image acquisition fails with `OUT_OF_DATE` (and the
ensuing recreation succeeds), `draw_frame` returns success, triggers exactly
one swapchain recreation, returns early without advancing `current_frame`,
and does not reset the in-flight fence for that slot; any other acquisition
error is propagated (as the wrapped fatal Vulkan error). -/
theorem C1_acquire_out_of_date (env : FrameEnv) (cf : Nat)
    (hw : env.wait_for_fences = .ok ()) :
    (env.acquire_next_image = .error .ERROR_OUT_OF_DATE_KHR →
      env.recreate_result = .ok () →
      (draw_frame env cf).result = .ok () ∧
      (draw_frame env cf).current_frame = cf ∧
      (draw_frame env cf).trace =
        [.waitForFences cf, .acquireNextImage cf, .recreateSwapchain] ∧
      (draw_frame env cf).trace.count .recreateSwapchain = 1 ∧
      FrameOp.resetFences cf ∉ (draw_frame env cf).trace) ∧
    (∀ code : Int, env.acquire_next_image = .error (.other code) →
      (draw_frame env cf).result = .error (.VkError code) ∧
      (draw_frame env cf).current_frame = cf) := by
  constructor
  · intro hacq hrec
    simp [draw_frame, hw, hacq, hrec, List.count_cons]
  · intro code hacq
    simp [draw_frame, hw, hacq]

/-- An environment in which acquisition reports `OUT_OF_DATE` and every other
call succeeds. -/
def env_acquire_out_of_date : FrameEnv :=
  { wait_for_fences := .ok (), acquire_next_image := .error .ERROR_OUT_OF_DATE_KHR,
    reset_fences := .ok (), reset_command_buffer := .ok (), record_result := .ok (),
    queue_submit := .ok (), queue_present := .ok false, recreate_result := .ok () }

/-- C1 witness: the `OUT_OF_DATE` scenario at a concrete environment. -/
theorem C1_acquire_out_of_date_witness :
    (draw_frame env_acquire_out_of_date 0).result = .ok () ∧
    (draw_frame env_acquire_out_of_date 0).current_frame = 0 ∧
    (draw_frame env_acquire_out_of_date 0).trace =
      [.waitForFences 0, .acquireNextImage 0, .recreateSwapchain] ∧
    (draw_frame env_acquire_out_of_date 0).trace.count .recreateSwapchain = 1 ∧
    FrameOp.resetFences 0 ∉ (draw_frame env_acquire_out_of_date 0).trace :=
  (C1_acquire_out_of_date env_acquire_out_of_date 0 rfl).1 rfl rfl

/-- An environment in which acquisition succeeds but presentation reports
`OUT_OF_DATE`; every other call succeeds. -/
def env_present_out_of_date : FrameEnv :=
  { wait_for_fences := .ok (), acquire_next_image := .ok (0, false),
    reset_fences := .ok (), reset_command_buffer := .ok (), record_result := .ok (),
    queue_submit := .ok (), queue_present := .error .ERROR_OUT_OF_DATE_KHR,
    recreate_result := .ok () }

/-- C2 counterexample: when the present call reports the surface as
out-of-date, `draw_frame` propagates it to the caller as a fatal
`VkError(-1000001004)` and performs no swapchain recreation at all — so
neither "triggers swapchain recreation after presenting" nor "swapchain
staleness is never returned to the caller as an error" holds of the present
path. -/
theorem C2_counterexample_present_out_of_date :
    (draw_frame env_present_out_of_date 0).result = .error (.VkError (-1000001004)) ∧
    (draw_frame env_present_out_of_date 0).trace.count .recreateSwapchain = 0 := by
  exact ⟨rfl, rfl⟩

/-- C2 (corrected): of the swapchain-staleness signals, only those observed at
acquisition are recovered: a suboptimal flag from acquisition triggers exactly
one recreation, after presenting, and `OUT_OF_DATE` at acquisition is handled
without surfacing an error; but `OUT_OF_DATE` reported by the present call
itself is propagated to the caller as a fatal error and triggers no
recreation. -/
theorem C2_staleness_handling (env : FrameEnv) (cf : Nat)
    (hw : env.wait_for_fences = .ok ()) (hrf : env.reset_fences = .ok ())
    (hrcb : env.reset_command_buffer = .ok ()) (hrr : env.record_result = .ok ())
    (hqs : env.queue_submit = .ok ()) :
    (∀ i b, env.acquire_next_image = .ok (i, true) → env.queue_present = .ok b →
      env.recreate_result = .ok () →
      (draw_frame env cf).result = .ok () ∧
      (draw_frame env cf).trace =
        [.waitForFences cf, .acquireNextImage cf, .updateUniformBuffer cf, .resetFences cf,
         .resetCommandBuffer cf, .recordCommandBuffer cf i, .queueSubmit cf, .queuePresent i,
         .recreateSwapchain]) ∧
    (env.acquire_next_image = .error .ERROR_OUT_OF_DATE_KHR → env.recreate_result = .ok () →
      (draw_frame env cf).result = .ok ()) ∧
    (∀ i b, env.acquire_next_image = .ok (i, b) →
      env.queue_present = .error .ERROR_OUT_OF_DATE_KHR →
      (draw_frame env cf).result = .error (.VkError (-1000001004)) ∧
      (draw_frame env cf).trace.count .recreateSwapchain = 0) := by
  refine ⟨?_, ?_, ?_⟩
  · intro i b hacq hqp hrec
    simp [draw_frame, hw, hacq, hrf, hrcb, hrr, hqs, hqp, hrec]
  · intro hacq hrec
    simp [draw_frame, hw, hacq, hrec]
  · intro i b hacq hqp
    cases b <;>
      simp [draw_frame, hw, hacq, hrf, hrcb, hrr, hqs, hqp, vkErr, vkRaw, List.count_cons]

/-- An environment in which acquisition succeeds with the suboptimal flag set
and every call succeeds. -/
def env_suboptimal_acquire : FrameEnv :=
  { wait_for_fences := .ok (), acquire_next_image := .ok (0, true),
    reset_fences := .ok (), reset_command_buffer := .ok (), record_result := .ok (),
    queue_submit := .ok (), queue_present := .ok false, recreate_result := .ok () }

/-- C2 witness: the suboptimal-acquisition scenario at a concrete environment
— the single recreation happens after the present operation. -/
theorem C2_staleness_handling_witness :
    (draw_frame env_suboptimal_acquire 0).result = .ok () ∧
    (draw_frame env_suboptimal_acquire 0).trace =
      [.waitForFences 0, .acquireNextImage 0, .updateUniformBuffer 0, .resetFences 0,
       .resetCommandBuffer 0, .recordCommandBuffer 0 0, .queueSubmit 0, .queuePresent 0,
       .recreateSwapchain] :=
  (C2_staleness_handling env_suboptimal_acquire 0 rfl rfl rfl rfl rfl).1 0 false rfl rfl rfl

lemma draw_frame_current_frame_cases (env : FrameEnv) (cf : Nat) :
    ((draw_frame env cf).result = .ok () ∧
      env.acquire_next_image = .error .ERROR_OUT_OF_DATE_KHR ∧
      (draw_frame env cf).current_frame = cf) ∨
    ((draw_frame env cf).result = .ok () ∧ (∃ i b, env.acquire_next_image = .ok (i, b)) ∧
      (draw_frame env cf).current_frame = (cf + 1) % MAX_FRAMES_IN_FLIGHT) ∨
    ((∃ e, (draw_frame env cf).result = .error e) ∧
      (draw_frame env cf).current_frame = cf) := by
  obtain ⟨wf, acq, rf, rcb, rr, qs, qp, rec⟩ := env
  rcases wf with c | u
  · right; right
    exact ⟨⟨vkErr c, rfl⟩, rfl⟩
  · cases u
    rcases acq with c | p
    · rcases c with _ | code
      · rcases rec with e | u
        · right; right
          exact ⟨⟨e, rfl⟩, rfl⟩
        · cases u
          left
          exact ⟨rfl, rfl, rfl⟩
      · right; right
        exact ⟨⟨.VkError code, rfl⟩, rfl⟩
    · obtain ⟨i, b⟩ := p
      rcases rf with c | u
      · right; right
        exact ⟨⟨vkErr c, rfl⟩, rfl⟩
      · cases u
        rcases rcb with c | u
        · right; right
          exact ⟨⟨vkErr c, rfl⟩, rfl⟩
        · cases u
          rcases rr with e | u
          · right; right
            exact ⟨⟨e, rfl⟩, rfl⟩
          · cases u
            rcases qs with c | u
            · right; right
              exact ⟨⟨vkErr c, rfl⟩, rfl⟩
            · cases u
              rcases qp with c | bp
              · right; right
                exact ⟨⟨vkErr c, rfl⟩, rfl⟩
              · cases b
                · right; left
                  exact ⟨rfl, ⟨i, false, rfl⟩, rfl⟩
                · rcases rec with e | u
                  · right; right
                    exact ⟨⟨e, rfl⟩, rfl⟩
                  · cases u
                    right; left
                    exact ⟨rfl, ⟨i, true, rfl⟩, rfl⟩

/-- C4 (confirmed): `current_frame` always stays within
{0, ..., MAX_FRAMES_IN_FLIGHT − 1} with MAX_FRAMES_IN_FLIGHT = 2; every
`draw_frame` call either leaves it unchanged or sets it to
(current_frame + 1) mod MAX_FRAMES_IN_FLIGHT; and among calls that return
success, the only path that does not advance it is the early return on
`OUT_OF_DATE` acquisition — every other successful call advances it. -/
theorem C4_current_frame_cycles (env : FrameEnv) (cf : Nat)
    (hcf : cf < MAX_FRAMES_IN_FLIGHT) :
    MAX_FRAMES_IN_FLIGHT = 2 ∧
    (draw_frame env cf).current_frame < MAX_FRAMES_IN_FLIGHT ∧
    ((draw_frame env cf).current_frame = cf ∨
      (draw_frame env cf).current_frame = (cf + 1) % MAX_FRAMES_IN_FLIGHT) ∧
    ((draw_frame env cf).result = .ok () →
      ((env.acquire_next_image = .error .ERROR_OUT_OF_DATE_KHR ∧
          (draw_frame env cf).current_frame = cf) ∨
        (env.acquire_next_image ≠ .error .ERROR_OUT_OF_DATE_KHR ∧
          (draw_frame env cf).current_frame = (cf + 1) % MAX_FRAMES_IN_FLIGHT))) := by
  have hmod : (cf + 1) % MAX_FRAMES_IN_FLIGHT < MAX_FRAMES_IN_FLIGHT :=
    Nat.mod_lt _ (by norm_num [MAX_FRAMES_IN_FLIGHT])
  rcases draw_frame_current_frame_cases env cf with
    ⟨hok, hacq, hcur⟩ | ⟨hok, ⟨i, b, hacq⟩, hcur⟩ | ⟨⟨e, herr⟩, hcur⟩
  · exact ⟨rfl, by rw [hcur]; exact hcf, Or.inl hcur,
      fun _ => Or.inl ⟨hacq, hcur⟩⟩
  · refine ⟨rfl, by rw [hcur]; exact hmod, Or.inr hcur, fun _ => Or.inr ⟨?_, hcur⟩⟩
    rw [hacq]
    intro hcontra
    exact Except.noConfusion hcontra
  · refine ⟨rfl, by rw [hcur]; exact hcf, Or.inl hcur, fun hok => ?_⟩
    rw [hok] at herr
    exact Except.noConfusion herr

/-- C4 witness: at a concrete all-success environment starting from slot 1,
the frame counter wraps to (1 + 1) mod 2 = 0. -/
theorem C4_current_frame_cycles_witness :
    MAX_FRAMES_IN_FLIGHT = 2 ∧
    (draw_frame env_suboptimal_acquire 1).current_frame < MAX_FRAMES_IN_FLIGHT ∧
    ((draw_frame env_suboptimal_acquire 1).current_frame = 1 ∨
      (draw_frame env_suboptimal_acquire 1).current_frame = (1 + 1) % MAX_FRAMES_IN_FLIGHT) ∧
    ((draw_frame env_suboptimal_acquire 1).result = .ok () →
      ((env_suboptimal_acquire.acquire_next_image = .error .ERROR_OUT_OF_DATE_KHR ∧
          (draw_frame env_suboptimal_acquire 1).current_frame = 1) ∨
        (env_suboptimal_acquire.acquire_next_image ≠ .error .ERROR_OUT_OF_DATE_KHR ∧
          (draw_frame env_suboptimal_acquire 1).current_frame =
            (1 + 1) % MAX_FRAMES_IN_FLIGHT))) :=
  C4_current_frame_cycles env_suboptimal_acquire 1 (by decide)

end VkProjectRust
